import Mathlib

/-
Shallow embedding of cogent3/util/parallel.py.

The module provides imap/map: apply a function f over a series s using
either a local process pool (concurrent.futures.ProcessPoolExecutor) or an
MPI pool (mpi4py.futures.MPIPoolExecutor), plus generate_seed and a
process-wide registry _FUNCTIONS used to ship unpicklable callables to
local workers via the PicklableAndCallable proxy.

Modelling conventions:
- Ambient facts the code reads (multiprocessing.cpu_count(),
  COMM.Get_attr(MPI.UNIVERSE_SIZE), whether MPI was importable at module
  load, i.e. the USING_MPI flag) are fields of Env.
- Python integers are Int; max_workers is Option Int (None or an int).
  Python truthiness: `not max_workers` is True exactly for None and 0,
  which is `mw.getD 0 == 0`.
- Exceptions are an Err inductive; a run returns Except Err (List β)
  together with the registry state after the call and counters for
  worker processes spawned and warnings emitted, so that claims of the
  form "fails before any worker is created" are statable.
- In Python, a def containing yield is a generator function: calling
  imap executes none of its body and returns a generator object; the body
  runs when the generator is first advanced.  The call is therefore the
  total constructor `imap` producing a `Generator` record of the
  arguments, and the body is `imapRun` (driven by the first advance, or
  by `map`, which drains the generator through list()).
- The pool primitives are external collaborators.  executor.map is
  trusted to be the order-preserving map (the spec states this ordering
  is inherited from the pooling primitive).  Both pool constructors
  document the precondition max_workers > 0 and raise ValueError
  otherwise; that documented behaviour is modelled as
  poolWorkerCountValueError.  Local workers see the submitter registry
  as propagated at pool start (fork semantics, the logical model given
  in the spec).
- The call warnings.warn(UserWarning, msg=err_msg) in the universe==1
  `warn` branch passes a keyword argument `msg` that warnings.warn does
  not accept, so at runtime it raises TypeError instead of emitting a
  warning; it is modelled as warnKeywordTypeError.
-/

namespace Parallel

/-- Ambient environment read by the module: the USING_MPI flag fixed at
module load, the MPI universe size, and the local CPU count. -/
structure Env where
  usingMPI : Bool
  universeSize : Int
  cpuCount : Int
deriving DecidableEq

/-- Exceptions the embedded code can raise.  The names follow the
error taxonomy of the specification where one exists; the Python source
raises AssertionError for invalidPolicy and invalidWorkerCount,
RuntimeError for distributedUnavailable, serialExecution and
unregisteredCallable, ValueError for rankParseValueError and (in the
pool constructors) poolWorkerCountValueError, and TypeError for
warnKeywordTypeError. -/
inductive Err where
  | invalidPolicy
  | distributedUnavailable
  | serialExecution
  | warnKeywordTypeError
  | invalidWorkerCount
  | poolWorkerCountValueError
  | unregisteredCallable
  | rankParseValueError
deriving DecidableEq

/-- Decidable equality of Except values over decidable payloads, so that
concrete run outcomes can be compared by decide. -/
instance instDecEqExcept {ε σ : Type} [DecidableEq ε] [DecidableEq σ] :
    DecidableEq (Except ε σ) := fun a b =>
  match a, b with
  | .ok x, .ok y =>
    if h : x = y then .isTrue (by rw [h])
    else .isFalse (fun hc => h (by injection hc))
  | .error x, .error y =>
    if h : x = y then .isTrue (by rw [h])
    else .isFalse (fun hc => h (by injection hc))
  | .ok _, .error _ => .isFalse (fun hc => by injection hc)
  | .error _, .ok _ => .isFalse (fun hc => by injection hc)

/-- The process-wide table _FUNCTIONS, keyed by id(f). -/
abbrev Registry (α β : Type) := List (Nat × (α → β))

/-- Removes every binding of key k. -/
def Registry.eraseKey (k : Nat) (r : Registry α β) : Registry α β :=
  r.filter (fun p => p.fst != k)

/-- Assignment _FUNCTIONS[key] = f of a Python dict: overwrites silently
if the key is present. -/
def Registry.insert (k : Nat) (f : α → β) (r : Registry α β) : Registry α β :=
  (k, f) :: Registry.eraseKey k r

/-- Lookup _FUNCTIONS[key]. -/
def Registry.resolve (k : Nat) (r : Registry α β) : Option (α → β) :=
  (r.find? (fun p => p.fst == k)).map Prod.snd

/-- Number of entries of the registry. -/
def Registry.size (r : Registry α β) : Nat := r.length

/-- One call of the PicklableAndCallable proxy inside a worker: looks the
key up in the worker copy of _FUNCTIONS; a missing key raises
RuntimeError (from the KeyError handler in __call__). -/
def PicklableAndCallable.call (reg : Registry α β) (key : Nat) (x : α) :
    Except Err β :=
  match Registry.resolve key reg with
  | some g => .ok (g x)
  | none => .error .unregisteredCallable

/-- executor.map of the local pool applied to the proxy: order-preserving
map of the proxy over the inputs, propagating a proxy failure. -/
def executorMapProxy (reg : Registry α β) (key : Nat) :
    List α → Except Err (List β)
  | [] => .ok []
  | x :: xs =>
    match PicklableAndCallable.call reg key x with
    | .error e => .error e
    | .ok y =>
      match executorMapProxy reg key xs with
      | .error e => .error e
      | .ok ys => .ok (y :: ys)

/-- Python truthiness test `not max_workers`: true for None and for 0. -/
def isFalsyWorkers (mw : Option Int) : Bool := mw.getD 0 == 0

/-- The worker count actually used: `if not max_workers` it becomes the
universe size minus 1 (MPI path) or cpu_count() minus 1 (local path),
otherwise the supplied value. -/
def effectiveMaxWorkers (env : Env) (use_mpi : Bool) (mw : Option Int) : Int :=
  if isFalsyWorkers mw then
    (if use_mpi then env.universeSize else env.cpuCount) - 1
  else mw.getD 0

/-- Python str.lower(), character by character. -/
def pyLower (s : String) : String := String.mk (s.data.map Char.toLower)

/-- Parses one character as a decimal digit, as int() does on a
single-character string. -/
def charDigit (c : Char) : Option Int :=
  if c.isDigit then some ((c.toNat : Int) - ('0'.toNat : Int)) else none

/-- rank = int(process_name[-1]): the LAST character of the process name,
parsed as a digit; fails (ValueError, or IndexError on an empty name)
when that character is not a decimal digit. -/
def rankFromName (name : String) : Option Int :=
  match name.data.getLast? with
  | some c => charDigit c
  | none => none

/-- generate_seed from the source: under MPI the rank is COMM.Get_rank();
otherwise it is parsed from the last character of
multiprocessing.current_process().name.  With a seed supplied the stored
value is seed + rank, otherwise int(time.time()) + rank.  The ambient
inputs (MPI rank, process name, current time) are explicit arguments. -/
def generate_seed (use_mpi : Bool) (mpiRank : Int) (processName : String)
    (now : Int) (seed : Option Int) : Except Err Int :=
  let rank : Except Err Int :=
    if use_mpi then .ok mpiRank
    else
      match rankFromName processName with
      | some d => .ok d
      | none => .error .rankParseValueError
  match rank with
  | .error e => .error e
  | .ok r =>
    match seed with
    | some s => .ok (s + r)
    | none => .ok (now + r)

/-- The generator object returned by calling imap: a record of the
arguments, none of the body having run. -/
structure Generator (α β : Type) where
  f : α → β
  s : List α
  fid : Nat
  max_workers : Option Int
  use_mpi : Bool
  seed : Option Int
  if_serial : String

/-- Calling imap(f, s, max_workers, use_mpi, seed, if_serial): a def
containing yield returns its generator object immediately, with no
validation and no side effect.  fid models id(f). -/
def imap (f : α → β) (s : List α) (fid : Nat) (max_workers : Option Int)
    (use_mpi : Bool) (seed : Option Int) (if_serial : String) :
    Generator α β :=
  ⟨f, s, fid, max_workers, use_mpi, seed, if_serial⟩

/-- Observable outcome of driving one imap generator to completion: the
yielded results or the exception, the registry after the call, and how
many worker processes were spawned and warnings emitted. -/
structure Outcome (α β : Type) where
  out : Except Err (List β)
  registry : Registry α β
  workersSpawned : Nat
  warningsEmitted : Nat

/-- The body of imap, executed when the generator is driven.  Faithful
to the source order: lower-case and validate if_serial; MPI branch
(USING_MPI check, universe==1 policy handling where the warn branch is
the TypeError-raising warnings.warn call, worker-count default, MPI pool);
local branch (worker-count default, the assert max_workers < cpu_count,
registry insertion under id(f), proxy wrapping, local pool running
executor.map).  No branch of this function emits a warning, because the
single warnings.warn call site raises TypeError. -/
def imapRun (env : Env) (reg : Registry α β) (g : Generator α β) :
    Outcome α β :=
  let pol := pyLower g.if_serial
  if pol = "ignore" ∨ pol = "raise" ∨ pol = "warn" then
    if g.use_mpi then
      if env.usingMPI = false then
        ⟨.error .distributedUnavailable, reg, 0, 0⟩
      else if env.universeSize = 1 ∧ pol = "raise" then
        ⟨.error .serialExecution, reg, 0, 0⟩
      else if env.universeSize = 1 ∧ pol = "warn" then
        ⟨.error .warnKeywordTypeError, reg, 0, 0⟩
      else
        let mw := effectiveMaxWorkers env true g.max_workers
        if mw ≤ 0 then ⟨.error .poolWorkerCountValueError, reg, 0, 0⟩
        else ⟨.ok (g.s.map g.f), reg, mw.toNat, 0⟩
    else
      let mw := effectiveMaxWorkers env false g.max_workers
      if env.cpuCount ≤ mw then ⟨.error .invalidWorkerCount, reg, 0, 0⟩
      else
        let reg2 := Registry.insert g.fid g.f reg
        if mw ≤ 0 then ⟨.error .poolWorkerCountValueError, reg2, 0, 0⟩
        else
          match executorMapProxy reg2 g.fid g.s with
          | .ok rs => ⟨.ok rs, reg2, mw.toNat, 0⟩
          | .error e => ⟨.error e, reg2, mw.toNat, 0⟩
  else ⟨.error .invalidPolicy, reg, 0, 0⟩

/-- First advance of the generator: runs the body up to the first yield,
so it surfaces exactly the exceptions of the run; on success it delivers
the first result if any. -/
def Generator.firstAdvance (env : Env) (reg : Registry α β)
    (g : Generator α β) : Except Err (Option β) :=
  (imapRun env reg g).out.map List.head?

/-- map(f, s, ...) = list(imap(f, s, ...)): drains the generator at call
time. -/
def map (f : α → β) (s : List α) (fid : Nat) (max_workers : Option Int)
    (use_mpi : Bool) (seed : Option Int) (if_serial : String)
    (env : Env) (reg : Registry α β) : Outcome α β :=
  imapRun env reg (imap f s fid max_workers use_mpi seed if_serial)

/-- Resolving the key just inserted returns the inserted function. -/
theorem Registry.resolve_insert (k : Nat) (f : α → β) (r : Registry α β) :
    Registry.resolve k (Registry.insert k f r) = some f := by
  simp [Registry.resolve, Registry.insert, List.find?]

/-- After inserting f under key, the proxy map over s computes the
order-preserving image of s under f. -/
theorem executorMapProxy_insert (k : Nat) (f : α → β) (r : Registry α β)
    (s : List α) :
    executorMapProxy (Registry.insert k f r) k s = .ok (s.map f) := by
  induction s with
  | nil => rfl
  | cons x xs ih =>
    simp [executorMapProxy, PicklableAndCallable.call,
      Registry.resolve_insert, ih]

/-- Erasing a key twice equals erasing it once. -/
theorem Registry.eraseKey_insert (k : Nat) (f : α → β) (r : Registry α β) :
    Registry.eraseKey k (Registry.insert k f r) = Registry.eraseKey k r := by
  unfold Registry.insert Registry.eraseKey
  simp [List.filter_cons, List.filter_filter]

/-- Overwriting an existing key leaves the registry unchanged when the
same function is written again. -/
theorem Registry.insert_insert (k : Nat) (f : α → β) (r : Registry α β) :
    Registry.insert k f (Registry.insert k f r) = Registry.insert k f r := by
  rw [Registry.insert, Registry.eraseKey_insert, Registry.insert]

/-- A nonzero supplied worker count is not falsy. -/
theorem isFalsyWorkers_some_ne (w : Int) (hw : w ≠ 0) :
    isFalsyWorkers (some w) = false := by
  simp only [isFalsyWorkers, Option.getD_some, beq_eq_false_iff_ne, ne_eq]
  exact hw

/-- C1: for every pure function f, finite input list s and worker count w
with 1 <= w < local CPU count, map(f, s, max_workers=w) on the local
backend returns exactly the list of f applied to each element of s, in the
original input order. -/
theorem c1_map_returns_image_in_order (f : α → β) (s : List α) (w : Int)
    (fid : Nat) (seed : Option Int) (env : Env) (reg : Registry α β)
    (h1 : 1 ≤ w) (h2 : w < env.cpuCount) :
    (Parallel.map f s fid (some w) false seed "raise" env reg).out
      = .ok (s.map f) := by
  have hfalsy : isFalsyWorkers (some w) = false :=
    isFalsyWorkers_some_ne w (by omega)
  have h2n : ¬ env.cpuCount ≤ w := by omega
  have h1n : ¬ w ≤ 0 := by omega
  simp [Parallel.map, imapRun, imap, effectiveMaxWorkers, hfalsy, h2n, h1n,
    executorMapProxy_insert, show pyLower "raise" = "raise" from rfl]

/-- C1 witness: three inputs, one worker, two CPUs. -/
theorem c1_map_returns_image_in_order_witness :
    (1 : Int) ≤ 1 ∧ (1 : Int) < 2 ∧
      (Parallel.map (fun n : Nat => n + 1) [1, 2, 3] 7 (some 1) false none
        "raise" ⟨false, 1, 2⟩ []).out = .ok [2, 3, 4] :=
  ⟨by norm_num, by norm_num,
    c1_map_returns_image_in_order (fun n : Nat => n + 1) [1, 2, 3] 1 7 none
      ⟨false, 1, 2⟩ [] (by norm_num) (by norm_num)⟩

/-- C2 counterexample: the string RAISE differs from all three of raise,
warn, ignore, yet the call does not fail with InvalidPolicyError, because
the source lowercases if_serial before the membership check; with a valid
worker count it returns the results. -/
theorem c2_counterexample_uppercase_policy_accepted :
    ("RAISE" ≠ "raise" ∧ "RAISE" ≠ "warn" ∧ "RAISE" ≠ "ignore")
    ∧ (Parallel.map (fun n : Nat => n) [1] 3 (some 1) false none "RAISE"
        ⟨false, 1, 4⟩ []).out = .ok [1] :=
  ⟨⟨by decide, by decide, by decide⟩, rfl⟩

/-- C2 amended: for every call whose if_serial value, once lowercased, is
not one of ignore, raise, warn, driving imap (hence map) fails with
InvalidPolicyError, no worker process is created, no warning is emitted
and the registry is untouched. -/
theorem c2_amended_invalid_policy_fails_first (f : α → β) (s : List α)
    (fid : Nat) (mw : Option Int) (mpi : Bool) (seed : Option Int)
    (pol : String) (env : Env) (reg : Registry α β)
    (h : ¬ (pyLower pol = "ignore" ∨ pyLower pol = "raise"
            ∨ pyLower pol = "warn")) :
    Parallel.map f s fid mw mpi seed pol env reg
      = ⟨.error .invalidPolicy, reg, 0, 0⟩ := by
  simp [Parallel.map, imapRun, imap, h]

/-- C2 amended witness: the policy string bogus. -/
theorem c2_amended_invalid_policy_fails_first_witness :
    ¬ (pyLower "bogus" = "ignore" ∨ pyLower "bogus" = "raise"
        ∨ pyLower "bogus" = "warn")
    ∧ Parallel.map (fun n : Nat => n) [1] 3 (some 1) false none "bogus"
        ⟨false, 1, 4⟩ [] = ⟨.error .invalidPolicy, [], 0, 0⟩ :=
  ⟨by decide,
    c2_amended_invalid_policy_fails_first (fun n : Nat => n) [1] 3 (some 1)
      false none "bogus" ⟨false, 1, 4⟩ [] (by decide)⟩

/-- C4: with a supplied base seed, each worker rank receives exactly
base + rank, and two distinct ranks receive distinct seeds. -/
theorem c4_seed_is_base_plus_rank_and_distinct (base r1 r2 : Int)
    (n1 n2 : String) (t : Int) (h : r1 ≠ r2) :
    generate_seed true r1 n1 t (some base) = .ok (base + r1)
    ∧ generate_seed true r2 n2 t (some base) = .ok (base + r2)
    ∧ base + r1 ≠ base + r2 :=
  ⟨rfl, rfl, by omega⟩

/-- C4 witness: base 5 and the two ranks 0 and 1. -/
theorem c4_seed_is_base_plus_rank_and_distinct_witness :
    (0 : Int) ≠ 1
    ∧ (generate_seed true 0 "Process-1" 0 (some 5) = .ok (5 + 0)
        ∧ generate_seed true 1 "Process-2" 0 (some 5) = .ok (5 + 1)
        ∧ (5 : Int) + 0 ≠ 5 + 1) :=
  ⟨by norm_num,
    c4_seed_is_base_plus_rank_and_distinct 5 0 1 "Process-1" "Process-2" 0
      (by norm_num)⟩

/-- C7 counterexample: in a process whose name is MainProcess the rank
cannot be determined, and generate_seed raises ValueError from
int(process_name[-1]) instead of defaulting the rank to 0. -/
theorem c7_counterexample_rank_parse_fails :
    generate_seed false 0 "MainProcess" 100 (some 5)
      = .error .rankParseValueError := rfl

/-- C7 amended: generate_seed cannot fail on the distributed backend, but
on the local backend it fails with ValueError exactly when the last
character of the worker process name is not a decimal digit; no branch
defaults the rank to 0. -/
theorem c7_amended_local_rank_parse_can_fail (mpiRank : Int) (name : String)
    (t : Int) (seed : Option Int) (h : rankFromName name = none) :
    generate_seed true mpiRank name t seed = .ok (seed.getD t + mpiRank)
    ∧ generate_seed false mpiRank name t seed
        = .error .rankParseValueError := by
  constructor
  · cases seed <;> rfl
  · simp [generate_seed, h]

/-- A successful local call leaves the registry with the function inserted
under its id; this is the registry state at and after pool teardown. -/
theorem map_local_registry (f : α → β) (s : List α) (fid : Nat) (w : Int)
    (seed : Option Int) (env : Env) (reg : Registry α β)
    (h1 : 1 ≤ w) (h2 : w < env.cpuCount) :
    (Parallel.map f s fid (some w) false seed "raise" env reg).registry
      = Registry.insert fid f reg := by
  have hfalsy : isFalsyWorkers (some w) = false :=
    isFalsyWorkers_some_ne w (by omega)
  have h2n : ¬ env.cpuCount ≤ w := by omega
  have h1n : ¬ w ≤ 0 := by omega
  simp [Parallel.map, imapRun, imap, effectiveMaxWorkers, hfalsy, h2n, h1n,
    executorMapProxy_insert, show pyLower "raise" = "raise" from rfl]

/-- C3: with the MPI runtime available but reporting exactly one slot, the
raise policy fails with the serial-execution RuntimeError as the claim
states, but the warn policy does not proceed with a warning: the source
calls warnings.warn(UserWarning, msg=err_msg), warnings.warn has no msg
keyword parameter, so the run raises TypeError having emitted no warning
and produced no results. -/
theorem c3_warn_branch_raises_type_error :
    ((Parallel.map (fun n : Nat => n) [1, 2] 3 (some 1) true none "raise"
        ⟨true, 1, 4⟩ []).out = .error .serialExecution)
    ∧ (Parallel.map (fun n : Nat => n) [1, 2] 3 (some 1) true none "warn"
        ⟨true, 1, 4⟩ [] : Outcome Nat Nat)
        = ⟨.error .warnKeywordTypeError, [], 0, 0⟩ :=
  ⟨rfl, rfl⟩

/-- C5 counterexample: the supplied worker count -1 violates
0 < max_workers on a four-CPU local host, yet the run does not fail with
InvalidWorkerCountError: the only fail-fast validation in the source is
max_workers < cpu_count, and the failure that does occur is the
ValueError of the pool constructor. -/
theorem c5_counterexample_negative_workers_pass_validation :
    ¬ (0 : Int) < -1
    ∧ (Parallel.map (fun n : Nat => n) [1] 3 (some (-1)) false none "raise"
        ⟨false, 1, 4⟩ []).out ≠ .error .invalidWorkerCount
    ∧ (Parallel.map (fun n : Nat => n) [1] 3 (some (-1)) false none "raise"
        ⟨false, 1, 4⟩ []).out = .error .poolWorkerCountValueError := by
  refine ⟨by norm_num, ?_, rfl⟩
  decide

/-- C5 amended: on the local backend the fail-fast validation rejects,
with InvalidWorkerCountError and before any worker is spawned, exactly
the runs whose supplied-or-computed worker count is at or above the CPU
count; the lower bound 0 < max_workers is not part of this validation (a
negative supplied value passes it, and the later failure is the pool
constructor ValueError, not InvalidWorkerCountError). -/
theorem c5_amended_only_upper_bound_checked (f : α → β) (s : List α)
    (fid : Nat) (mw : Option Int) (seed : Option Int) (env : Env)
    (reg : Registry α β) :
    (Parallel.map f s fid mw false seed "raise" env reg).out
        = .error .invalidWorkerCount
      ↔ env.cpuCount ≤ effectiveMaxWorkers env false mw := by
  by_cases hub : env.cpuCount ≤ effectiveMaxWorkers env false mw
  · simp [Parallel.map, imapRun, imap, hub,
      show pyLower "raise" = "raise" from rfl]
  · by_cases hlb : effectiveMaxWorkers env false mw ≤ 0
    · simp [Parallel.map, imapRun, imap, hub, hlb,
        show pyLower "raise" = "raise" from rfl]
    · simp [Parallel.map, imapRun, imap, hub, hlb, executorMapProxy_insert,
        show pyLower "raise" = "raise" from rfl]

/-- C6 counterexample: starting from an empty registry, one successful
completed map call leaves one registry entry behind, so the registry size
does not return to its pre-call baseline of zero. -/
theorem c6_counterexample_entry_left_after_call :
    (Parallel.map (fun n : Nat => n) [1] 3 (some 1) false none "raise"
        ⟨false, 1, 4⟩ []).out = .ok [1]
    ∧ Registry.size (Parallel.map (fun n : Nat => n) [1] 3 (some 1) false
        none "raise" ⟨false, 1, 4⟩ ([] : Registry Nat Nat)).registry = 1
    ∧ Registry.size ([] : Registry Nat Nat) = 0 :=
  ⟨rfl, rfl, rfl⟩

/-- C6 amended: the registry entry is never removed: after a completed
call the function is still registered under its id.  Because the key is
id(f), a second call with the same function object overwrites that same
entry, so the registry after the second call equals the registry after
the first: repeated calls with one function object do not grow the
registry, but its size stays one above the pre-first-call baseline for a
fresh key instead of returning to it. -/
theorem c6_amended_entry_persists_no_growth (f : α → β) (s1 s2 : List α)
    (fid : Nat) (w : Int) (seed : Option Int) (env : Env)
    (reg : Registry α β) (h1 : 1 ≤ w) (h2 : w < env.cpuCount) :
    Registry.resolve fid
        (Parallel.map f s1 fid (some w) false seed "raise" env reg).registry
      = some f
    ∧ (Parallel.map f s2 fid (some w) false seed "raise" env
          (Parallel.map f s1 fid (some w) false seed "raise" env
            reg).registry).registry
        = (Parallel.map f s1 fid (some w) false seed "raise" env
            reg).registry := by
  rw [map_local_registry f s1 fid w seed env reg h1 h2,
    map_local_registry f s2 fid w seed env (Registry.insert fid f reg) h1 h2,
    Registry.insert_insert]
  exact ⟨Registry.resolve_insert fid f reg, rfl⟩

/-- C6 amended witness: two calls with the same function id 3. -/
theorem c6_amended_entry_persists_no_growth_witness :
    (1 : Int) ≤ 1 ∧ (1 : Int) < 4 ∧
      (Registry.resolve 3
          (Parallel.map (fun n : Nat => n) [1] 3 (some 1) false none "raise"
            ⟨false, 1, 4⟩ []).registry
        = some (fun n : Nat => n)
      ∧ (Parallel.map (fun n : Nat => n) [2] 3 (some 1) false none "raise"
            ⟨false, 1, 4⟩
            (Parallel.map (fun n : Nat => n) [1] 3 (some 1) false none
              "raise" ⟨false, 1, 4⟩ []).registry).registry
          = (Parallel.map (fun n : Nat => n) [1] 3 (some 1) false none
              "raise" ⟨false, 1, 4⟩ []).registry) :=
  ⟨by norm_num, by norm_num,
    c6_amended_entry_persists_no_growth (fun n : Nat => n) [1] [2] 3 1 none
      ⟨false, 1, 4⟩ [] (by norm_num) (by norm_num)⟩

/-- C8: requesting MPI execution when the MPI runtime was not initialized
at process start (USING_MPI false) fails with RuntimeError, the
DistributedUnavailableError of the taxonomy; for every valid policy the
run errors with no worker created, no warning emitted and the registry
untouched, so no work is submitted. -/
theorem c8_mpi_unavailable_fails (f : α → β) (s : List α) (fid : Nat)
    (mw : Option Int) (seed : Option Int) (pol : String) (env : Env)
    (reg : Registry α β) (hmpi : env.usingMPI = false)
    (hpol : pyLower pol = "ignore" ∨ pyLower pol = "raise"
            ∨ pyLower pol = "warn") :
    Parallel.map f s fid mw true seed pol env reg
      = ⟨.error .distributedUnavailable, reg, 0, 0⟩ := by
  simp [Parallel.map, imapRun, imap, hpol, hmpi]

/-- C8 witness: policy raise, MPI runtime absent. -/
theorem c8_mpi_unavailable_fails_witness :
    (Env.mk false 5 4).usingMPI = false
    ∧ (pyLower "raise" = "ignore" ∨ pyLower "raise" = "raise"
        ∨ pyLower "raise" = "warn")
    ∧ Parallel.map (fun n : Nat => n) [1] 3 (some 1) true none "raise"
        ⟨false, 5, 4⟩ [] = ⟨.error .distributedUnavailable, [], 0, 0⟩ :=
  ⟨rfl, by decide,
    c8_mpi_unavailable_fails (fun n : Nat => n) [1] 3 (some 1) none "raise"
      ⟨false, 5, 4⟩ [] rfl (by decide)⟩

/-- C9: calling imap runs none of the body: it returns the generator
record of its arguments for every input, valid or not, with no validation
and no side effect; the eager map is exactly the run of that generator, so
it surfaces at call time the errors the generator raises at first
advance, and an error surfaces at the first advance of the generator
exactly when the drained run errors. -/
theorem c9_imap_lazy_map_eager (f : α → β) (s : List α) (fid : Nat)
    (mw : Option Int) (mpi : Bool) (seed : Option Int) (pol : String)
    (env : Env) (reg : Registry α β) :
    imap f s fid mw mpi seed pol = Generator.mk f s fid mw mpi seed pol
    ∧ Parallel.map f s fid mw mpi seed pol env reg
        = imapRun env reg (imap f s fid mw mpi seed pol)
    ∧ ∀ e : Err,
        Generator.firstAdvance env reg (imap f s fid mw mpi seed pol)
            = .error e
          ↔ (imapRun env reg (imap f s fid mw mpi seed pol)).out
              = .error e := by
  refine ⟨rfl, rfl, fun e => ?_⟩
  cases h : (imapRun env reg (imap f s fid mw mpi seed pol)).out <;>
    simp [Generator.firstAdvance, h, Except.map]

/-- C10: a falsy max_workers (None or 0) is treated as not supplied: the
local backend substitutes cpu_count - 1 and the MPI backend substitutes
universe size - 1, and no run with such an input fails with
InvalidWorkerCountError. -/
theorem c10_falsy_workers_defaulted (f : α → β) (s : List α) (fid : Nat)
    (mw : Option Int) (seed : Option Int) (pol : String) (env : Env)
    (reg : Registry α β) (hmw : isFalsyWorkers mw = true) :
    effectiveMaxWorkers env false mw = env.cpuCount - 1
    ∧ effectiveMaxWorkers env true mw = env.universeSize - 1
    ∧ (Parallel.map f s fid mw false seed pol env reg).out
        ≠ .error .invalidWorkerCount
    ∧ (Parallel.map f s fid mw true seed pol env reg).out
        ≠ .error .invalidWorkerCount := by
  have heffl : effectiveMaxWorkers env false mw = env.cpuCount - 1 := by
    simp [effectiveMaxWorkers, hmw]
  have heffm : effectiveMaxWorkers env true mw = env.universeSize - 1 := by
    simp [effectiveMaxWorkers, hmw]
  refine ⟨heffl, heffm, ?_, ?_⟩
  · by_cases hp : pyLower pol = "ignore" ∨ pyLower pol = "raise"
        ∨ pyLower pol = "warn"
    · have hub : ¬ env.cpuCount ≤ env.cpuCount - 1 := by omega
      by_cases hlb : env.cpuCount - 1 ≤ 0
      · simp [Parallel.map, imapRun, imap, heffl, hp, hub, hlb]
      · simp [Parallel.map, imapRun, imap, heffl, hp, hub, hlb,
          executorMapProxy_insert]
    · simp [Parallel.map, imapRun, imap, hp]
  · by_cases hp : pyLower pol = "ignore" ∨ pyLower pol = "raise"
        ∨ pyLower pol = "warn"
    · by_cases hu : env.usingMPI = false
      · simp [Parallel.map, imapRun, imap, hp, hu]
      · by_cases hs1 : env.universeSize = 1 ∧ pyLower pol = "raise"
        · simp [Parallel.map, imapRun, imap, hp, hu, hs1]
        · by_cases hs2 : env.universeSize = 1 ∧ pyLower pol = "warn"
          · simp [Parallel.map, imapRun, imap, hp, hu, hs1, hs2]
          · by_cases hlb : effectiveMaxWorkers env true mw ≤ 0
            · simp [Parallel.map, imapRun, imap, hp, hu, hs1, hs2, hlb]
            · simp [Parallel.map, imapRun, imap, hp, hu, hs1, hs2, hlb]
    · simp [Parallel.map, imapRun, imap, hp]

/-- C10 witness: max_workers 0 on a host with four CPUs and an MPI
universe of three slots. -/
theorem c10_falsy_workers_defaulted_witness :
    isFalsyWorkers (some 0) = true
    ∧ (effectiveMaxWorkers ⟨true, 3, 4⟩ false (some 0) = 4 - 1
        ∧ effectiveMaxWorkers ⟨true, 3, 4⟩ true (some 0) = 3 - 1
        ∧ (Parallel.map (fun n : Nat => n) [1] 3 (some 0) false none
            "raise" ⟨true, 3, 4⟩ []).out ≠ .error .invalidWorkerCount
        ∧ (Parallel.map (fun n : Nat => n) [1] 3 (some 0) true none
            "raise" ⟨true, 3, 4⟩ []).out ≠ .error .invalidWorkerCount) :=
  ⟨rfl,
    c10_falsy_workers_defaulted (fun n : Nat => n) [1] 3 (some 0) none
      "raise" ⟨true, 3, 4⟩ [] rfl⟩

/-- C7 amended witness: the name MainProcess ends in a letter. -/
theorem c7_amended_local_rank_parse_can_fail_witness :
    rankFromName "MainProcess" = none
    ∧ (generate_seed true 3 "MainProcess" 100 (some 5) = .ok ((5 : Int) + 3)
        ∧ generate_seed false 3 "MainProcess" 100 (some 5)
            = .error .rankParseValueError) :=
  ⟨rfl,
    c7_amended_local_rank_parse_can_fail 3 "MainProcess" 100 (some 5) rfl⟩

end Parallel
